import Mathlib

/-!
Verification model of the pg-mcp natural-language-to-SQL gateway
(`src/pg_mcp/services/sql_validator.py`, `orchestrator.py`, `models/query.py`).

The SQL parser (sqlglot) is an external library: a parsed statement is
modelled by the data the validator observes on it — the node's type, a
Command's keyword, a WITH statement's main query type, and the results of
`find_all` over Func/Table/Column/Subquery nodes.  Every validator and
orchestrator function is translated clause by clause from the Python source.
-/

namespace PgMcp

/-! ### String primitives

Python's `str.lower`, `str.upper`, `str.strip` and string comparison,
modelled over the character list of a `String` (structural definitions, so
concrete instances evaluate inside proofs; SQL identifiers are ASCII, for
which `Char.toLower`/`Char.toUpper` agree with Python's case mapping). -/

/-- Python `s.lower()`. -/
def strLower (s : String) : String := ⟨s.data.map Char.toLower⟩

/-- Python `s.upper()`. -/
def strUpper (s : String) : String := ⟨s.data.map Char.toUpper⟩

/-- Python `s.strip()`: remove leading and trailing whitespace. -/
def strStrip (s : String) : String :=
  ⟨((s.data.dropWhile Char.isWhitespace).reverse.dropWhile
      Char.isWhitespace).reverse⟩

/-- Lexicographic strict comparison of character lists (Python's `<` on
strings compares code points lexicographically). -/
def charListLt : List Char → List Char → Bool
  | [], [] => false
  | [], _ :: _ => true
  | _ :: _, [] => false
  | a :: as, b :: bs =>
    if a < b then true else if b < a then false else charListLt as bs

/-- Lexicographic non-strict comparison of character lists. -/
def charListLe : List Char → List Char → Bool
  | [], _ => true
  | _ :: _, [] => false
  | a :: as, b :: bs =>
    if a < b then true else if b < a then false else charListLe as bs

/-- Python `a < b` on strings. -/
def strLt (a b : String) : Bool := charListLt a.data b.data

/-- Python `a <= b` on strings. -/
def strLe (a b : String) : Bool := charListLe a.data b.data

/-- The sqlglot expression classes the validator dispatches on with
`isinstance`.  `Other` stands for any expression class outside the fixed
sets (its field is the Python class `__name__`). -/
inductive NodeType where
  | Select | Union | Intersect | Except
  | Insert | Update | Delete | Merge
  | Drop | Create | Alter | Grant | Revoke | Set | Command | Use
  | With | Subquery
  | Other (typeName : String)
deriving DecidableEq, Repr

/-- Python `__name__` of the sqlglot class. -/
def NodeType.typeName : NodeType → String
  | .Select => "Select"
  | .Union => "Union"
  | .Intersect => "Intersect"
  | .Except => "Except"
  | .Insert => "Insert"
  | .Update => "Update"
  | .Delete => "Delete"
  | .Merge => "Merge"
  | .Drop => "Drop"
  | .Create => "Create"
  | .Alter => "Alter"
  | .Grant => "Grant"
  | .Revoke => "Revoke"
  | .Set => "Set"
  | .Command => "Command"
  | .Use => "Use"
  | .With => "With"
  | .Subquery => "Subquery"
  | .Other s => s

/-- An `exp.Column` node as observed by the validator: `column.name` and
`column.table` (sqlglot returns `""` for a missing qualifier, which is
falsy in Python). -/
structure ColumnRef where
  name : String
  table : String := ""
deriving DecidableEq, Repr

/-- The observable content of one parsed sqlglot statement.  The validator
reads a statement only through these projections:
`type(statement)`, `statement.this` (Command keyword / WITH main query),
and `statement.find_all(...)` for Func, Table, Column and Subquery nodes. -/
structure Statement where
  nodeType : NodeType
  /-- `statement.this` for a Command node (the command keyword); `""` when
  absent (falsy). -/
  thisCommand : String := ""
  /-- `statement.this` for a WITH node: the type of the main query, `none`
  when absent (falsy). -/
  thisMain : Option NodeType := none
  /-- names of all `exp.Func` nodes in the tree (`find_all(exp.Func)`). -/
  funcNames : List String := []
  /-- names of all `exp.Table` nodes in the tree (`find_all(exp.Table)`). -/
  tableNames : List String := []
  /-- all `exp.Column` nodes in the tree (`find_all(exp.Column)`). -/
  columns : List ColumnRef := []
  /-- the inner statement type of each `exp.Subquery` node in the tree;
  `none` when `subquery.this` is falsy. -/
  subqueryInners : List (Option NodeType) := []
deriving Repr

/-- Exceptions raised by the validator (`pg_mcp.models.errors`). -/
inductive ValidationError where
  | SQLParseError (msg : String)
  | SecurityViolationError (msg : String)
deriving DecidableEq, Repr

/-- Python `str(e)` on a validation exception. -/
def ValidationError.toString : ValidationError → String
  | .SQLParseError m => m
  | .SecurityViolationError m => m

/-- `SecurityConfig` fields the validator consumes (`config/settings.py`). -/
structure SecurityConfig where
  allow_write_operations : Bool
  blocked_functions : List String := []

/-- `SQLValidator.ALLOWED_STATEMENT_TYPES`. -/
def ALLOWED_STATEMENT_TYPES : List NodeType :=
  [.Select, .Union, .Intersect, .Except]

/-- `SQLValidator.WRITE_STATEMENT_TYPES`. -/
def WRITE_STATEMENT_TYPES : List NodeType :=
  [.Insert, .Update, .Delete, .Merge]

/-- `SQLValidator.FORBIDDEN_STATEMENT_TYPES`. -/
def FORBIDDEN_STATEMENT_TYPES : List NodeType :=
  [.Drop, .Create, .Alter, .Grant, .Revoke, .Set, .Command, .Use]

/-- `SQLValidator.BUILTIN_DANGEROUS_FUNCTIONS`. -/
def BUILTIN_DANGEROUS_FUNCTIONS : List String :=
  ["pg_sleep", "pg_terminate_backend", "pg_cancel_backend", "pg_reload_conf",
   "pg_rotate_logfile", "pg_read_file", "pg_read_binary_file", "pg_ls_dir",
   "pg_stat_file", "lo_import", "lo_export", "dblink", "dblink_exec",
   "dblink_connect", "dblink_open", "pg_write_file", "pg_execute_sql",
   "copy_from", "copy_to"]

/-- State of a constructed `SQLValidator` (Python sets are modelled as lists,
used only through membership). -/
structure SQLValidator where
  blocked_tables : List String
  blocked_columns : List String
  allow_explain : Bool
  allow_write_operations : Bool
  blocked_functions : List String

/-- `SQLValidator.__init__`: lowercases the blocked-table/column lists and
unions the built-in dangerous functions with the lowercased configured
deny-list. -/
def SQLValidator.init (config : SecurityConfig)
    (blocked_tables : List String := []) (blocked_columns : List String := [])
    (allow_explain : Bool := false) : SQLValidator :=
  { blocked_tables := blocked_tables.map strLower
    blocked_columns := blocked_columns.map strLower
    allow_explain := allow_explain
    allow_write_operations := config.allow_write_operations
    blocked_functions :=
      BUILTIN_DANGEROUS_FUNCTIONS ++ config.blocked_functions.map strLower }

/-- `SQLValidator._check_statement_type` (the function only inspects
`isinstance(statement, ...)`, i.e. the node type). -/
def check_statement_type (v : SQLValidator) (t : NodeType) : Option String :=
  -- Check for forbidden statement types (always blocked)
  match FORBIDDEN_STATEMENT_TYPES.find? (fun f => t = f) with
  | some f => some (strUpper f.typeName ++ " statements are not allowed.")
  | none =>
    -- Check for write statement types
    match WRITE_STATEMENT_TYPES.find? (fun w => t = w) with
    | some w =>
      if ¬ v.allow_write_operations then
        some (strUpper w.typeName ++
          " statements are not allowed. Write operations are disabled.")
      else none
    | none =>
      -- Ensure statement is an allowed type (SELECT or set operations)
      if ¬ ALLOWED_STATEMENT_TYPES.contains t then
        some ("Statement type " ++ t.typeName ++
          " is not allowed. Only SELECT queries are permitted.")
      else none

/-- `SQLValidator._check_dangerous_functions`. -/
def check_dangerous_functions (v : SQLValidator) (statement : Statement) :
    Option String :=
  statement.funcNames.findSome? fun name =>
    let func_name := strLower name
    if v.blocked_functions.contains func_name then
      some ("Function " ++ "'" ++ func_name ++ "'" ++
        " is blocked for security reasons")
    else none

/-- `SQLValidator._check_blocked_tables`. -/
def check_blocked_tables (v : SQLValidator) (statement : Statement) :
    Option String :=
  if v.blocked_tables = [] then none
  else
    statement.tableNames.findSome? fun name =>
      let table_name := strLower name
      if v.blocked_tables.contains table_name then
        some ("Access to table " ++ "'" ++ table_name ++ "'" ++
          " is not allowed")
      else none

/-- `SQLValidator._check_blocked_columns`: per column, first an exact match
on the unqualified name, then on the qualified `table.column` form. -/
def check_blocked_columns (v : SQLValidator) (statement : Statement) :
    Option String :=
  if v.blocked_columns = [] then none
  else
    statement.columns.findSome? fun column =>
      let column_name := strLower column.name
      if v.blocked_columns.contains column_name then
        some ("Access to column " ++ "'" ++ column_name ++ "'" ++
          " is not allowed")
      else if column.table ≠ "" then
        let qualified_name := strLower column.table ++ "." ++ column_name
        if v.blocked_columns.contains qualified_name then
          some ("Access to column " ++ "'" ++ qualified_name ++ "'" ++
            " is not allowed")
        else none
      else none

/-- `SQLValidator._check_subquery_safety`. -/
def check_subquery_safety (statement : Statement) : Option String :=
  statement.subqueryInners.findSome? fun inner =>
    match inner with
    | none => none
    | some inner_stmt =>
      match FORBIDDEN_STATEMENT_TYPES.find? (fun f => inner_stmt = f) with
      | some f => some (strUpper f.typeName ++
          " statements in subqueries are not allowed")
      | none =>
        if inner_stmt ≠ NodeType.Select ∧ inner_stmt ≠ NodeType.With then
          some "Subqueries must contain only SELECT statements"
        else none

/-- `SQLValidator.validate_or_raise`.  The call to `sqlglot.parse` is the
external parser boundary: its outcome is passed in as `parsed`
(`.error` = parser exception, list entries are `Option` because sqlglot
may return `None` entries, e.g. for comment-only input). -/
def validate_or_raise (v : SQLValidator) (sql : String)
    (parsed : Except String (List (Option Statement))) :
    Except ValidationError Unit :=
  -- Check for empty or whitespace-only SQL
  if strStrip sql = "" then
    .error (.SQLParseError "SQL query cannot be empty")
  else
    match parsed with
    | .error e => .error (.SQLParseError ("Failed to parse SQL: " ++ e))
    | .ok parsed =>
      -- Check for multiple statements
      if parsed.length > 1 then
        .error (.SecurityViolationError
          "Multiple statements not allowed. Only single SELECT queries are permitted.")
      else
        match parsed with
        | [] => .error (.SQLParseError "No valid SQL statement found")
        | statement :: _ =>
          match statement with
          -- Check for null statement (e.g., comment-only SQL)
          | none => .error (.SQLParseError "No valid SQL statement found")
          | some statement =>
            -- Handle EXPLAIN statements (parsed as Command in sqlglot 28.5.0)
            if statement.nodeType = .Command then
              let cmd_name := strUpper statement.thisCommand
              if cmd_name = "EXPLAIN" then
                if ¬ v.allow_explain then
                  .error (.SecurityViolationError
                    "EXPLAIN statements are not allowed")
                -- EXPLAIN is read-only; the inner query is not validated.
                else .ok ()
              else
                .error (.SecurityViolationError
                  ("Command " ++ "'" ++ cmd_name ++ "'" ++
                    " is not allowed. Only SELECT queries are permitted."))
            else
              -- Handle CTE (WITH) statements - extract the main query
              let main_query : Except ValidationError NodeType :=
                if statement.nodeType = .With then
                  match statement.thisMain with
                  | some m => .ok m
                  | none =>
                    .error (.SQLParseError "WITH statement has no main query")
                else .ok statement.nodeType
              match main_query with
              | .error e => .error e
              | .ok main_query =>
                -- Perform security checks
                match check_statement_type v main_query with
                | some error => .error (.SecurityViolationError error)
                | none =>
                match check_dangerous_functions v statement with
                | some error => .error (.SecurityViolationError error)
                | none =>
                match check_blocked_tables v statement with
                | some error => .error (.SecurityViolationError error)
                | none =>
                match check_blocked_columns v statement with
                | some error => .error (.SecurityViolationError error)
                | none =>
                match check_subquery_safety statement with
                | some error => .error (.SecurityViolationError error)
                | none => .ok ()

/-- `SQLValidator.validate`. -/
def validate (v : SQLValidator) (sql : String)
    (parsed : Except String (List (Option Statement))) :
    Bool × Option String :=
  match validate_or_raise v sql parsed with
  | .ok _ => (true, none)
  | .error e => (false, some e.toString)

/-- Ordered insertion keeping the list strictly sorted and duplicate-free;
`foldr insertSorted []` models Python's `sorted(set(...))`. -/
def insertSorted (x : String) : List String → List String
  | [] => [x]
  | y :: ys =>
    if strLe x y then
      if x = y then y :: ys else x :: y :: ys
    else y :: insertSorted x ys

/-- Python `sorted(set(l))`: the sorted list of the distinct elements. -/
def sortedUnique (l : List String) : List String :=
  l.foldr insertSorted []

/-- `SQLValidator.extract_tables`.  `parsed` is the outcome of the external
`sqlglot.parse_one` call; the statement's `find_all(exp.Table)` names are in
`Statement.tableNames` (entries with falsy `table.name` are skipped). -/
def extract_tables (parsed : Except String Statement) :
    Except ValidationError (List String) :=
  match parsed with
  | .error e => .error (.SQLParseError ("Failed to extract tables: " ++ e))
  | .ok p =>
    let tables := (p.tableNames.filter (fun n => n ≠ "")).map strLower
    .ok (sortedUnique tables)

/-! ## Query models (`models/query.py`) -/

/-- `ReturnType`. -/
inductive ReturnType where
  | SQL
  | RESULT
deriving DecidableEq, Repr

/-- `QueryRequest` (after pydantic validation). -/
structure QueryRequest where
  question : String
  database : Option String := none
  return_type : ReturnType := .RESULT
deriving Repr

/-- `ValidationResult`. -/
structure ValidationResult where
  is_valid : Bool
  is_select : Bool := false
  allows_data_modification : Bool := false
  uses_blocked_functions : List String := []
  error_message : Option String := none
deriving DecidableEq, Repr

/-- A result row: the mapping returned by the executor for one record
(association list of column name to value; values are opaque strings). -/
def Row : Type := List (String × String)
deriving instance DecidableEq, Repr for Row

/-- `row.keys()`. -/
def Row.keys (r : Row) : List String := r.map Prod.fst

/-- `QueryResult` (`row_count` is forced to `rows.length` by its
pydantic validator whenever `rows` was supplied, which it always is at the
construction sites; `execution_time_ms` is wall-clock time, fixed to 0 in
the model). -/
structure QueryResult where
  columns : List String := []
  rows : List Row := []
  row_count : Nat := 0
  execution_time_ms : Nat := 0
deriving DecidableEq, Repr

/-- Error codes (`models/errors.py` is not part of the extracted source;
Modelled from the spec: error taxonomy of section 7 — `DatabaseError`,
`SchemaLoadError`, `SecurityViolationError`, `SQLParseError`, `LLMError`,
`RATE_LIMIT_EXCEEDED`, `INTERNAL_ERROR`). -/
inductive ErrorCode where
  | DATABASE_ERROR
  | SCHEMA_LOAD_ERROR
  | SECURITY_VIOLATION
  | SQL_PARSE_ERROR
  | LLM_ERROR
  | RATE_LIMIT_EXCEEDED
  | INTERNAL_ERROR
deriving DecidableEq, Repr

/-- `ErrorDetail` (the `details` dict is modelled by the entries the
verified properties inspect: the `available_databases` list and the `hint`
string; other entries, such as `requested_database` or `timeout`, are not
represented). -/
structure ErrorDetail where
  code : ErrorCode
  message : String
  details_available_databases : List String := []
  details_hint : String := ""
deriving DecidableEq, Repr

/-- `QueryResponse` (the plain record; pydantic construction with its field
validators is `mkQueryResponse` below). -/
structure QueryResponse where
  success : Bool
  generated_sql : Option String := none
  validation : Option ValidationResult := none
  data : Option QueryResult := none
  error : Option ErrorDetail := none
  confidence : Nat := 100
  tokens_used : Option Nat := none
deriving DecidableEq, Repr

/-- Pydantic construction of `QueryResponse`.  Pydantic runs field
validators in field declaration order (`success`, `generated_sql`,
`validation`, `data`, `error`, `confidence`, `tokens_used`) and `info.data`
holds only the previously validated fields.  In particular, when
`validate_data` runs, `error` has not been validated yet, so
`info.data.get("error")` is always `None` there. -/
def mkQueryResponse (success : Bool) (generated_sql : Option String)
    (validation : Option ValidationResult) (data : Option QueryResult)
    (error : Option ErrorDetail) (confidence : Nat)
    (tokens_used : Option Nat) : Except String QueryResponse :=
  -- validate_data: info.data = {success, generated_sql, validation}
  let error_in_info : Option ErrorDetail := none
  if ¬ success ∧ data.isSome then
    .error "Data should not be present when success is False"
  else if success ∧ error_in_info.isSome ∧ data.isSome then
    .error "Cannot have both data and error"
  -- validate_error: info.data now also holds data
  else if ¬ success ∧ error.isNone then
    .error "Error must be present when success is False"
  else
    .ok { success, generated_sql, validation, data, error, confidence,
          tokens_used }

/-- The invariant stated by the specification for `QueryResponse`:
`data` present only when `success`; `error` present iff `¬ success`;
never both `data` and `error`. -/
def QueryResponse.specInvariant (r : QueryResponse) : Prop :=
  (r.data.isSome → r.success = true)
  ∧ (r.error.isSome ↔ r.success = false)
  ∧ ¬ (r.data.isSome ∧ r.error.isSome)

instance (r : QueryResponse) : Decidable r.specInvariant := by
  unfold QueryResponse.specInvariant
  infer_instance

/-! ## Orchestrator (`services/orchestrator.py`)

External collaborators (LLM generator, executor, schema cache I/O, result
validator, rate limiter, circuit breaker) are oracles: each call site is
given its outcome as data.  Exceptions crossing component boundaries are
values of `PyExc`. -/

/-- An exception as the orchestrator's handlers see it: the builtin
`TimeoutError`, a `PgMcpError` subclass (identified by its error code,
carrying message and details), or any other exception. -/
inductive PyExc where
  | TimeoutError
  | PgMcpErr (code : ErrorCode) (message : String)
      (details_available_databases : List String)
      (details_hint : String)
  | OtherExc (typeName : String) (message : String)
deriving DecidableEq, Repr

/-- Python `str(e)` (a bare `TimeoutError()` prints as the empty string). -/
def PyExc.str : PyExc → String
  | .TimeoutError => ""
  | .PgMcpErr _ m _ _ => m
  | .OtherExc _ m => m

/-- `SelectionResult` (`services/database_selector.py`): the field the
orchestrator reads from it. -/
structure SelectionResult where
  database : String
deriving DecidableEq, Repr

/-- Orchestrator state fixed by `QueryOrchestrator.__init__` (pools and
executors are represented by their dict keys in insertion order;
`default_database` is the effective value after the `__init__`
substitution, see `Orchestrator.init`). -/
structure Orchestrator where
  pools : List String
  sql_executors : List String
  default_database : Option String
  has_selector : Bool
  database_descriptions : List (String × String)
  max_retries : Nat
  rate_limiter_configured : Bool
  validation_enabled : Bool
deriving Repr

/-- `QueryOrchestrator.__init__` line
`self.default_database = default_database or (next(iter(sql_executors.keys())) if sql_executors else None)`:
a missing (or empty, hence falsy) default is replaced by the first
SQL-executor key when any executors are configured. -/
def effective_default_database (default_database : Option String)
    (sql_executors : List String) : Option String :=
  match default_database with
  | some d => if d = "" then sql_executors.head? else some d
  | none => sql_executors.head?

/-- `QueryOrchestrator.__init__` restricted to the fields the modelled
methods read. -/
def Orchestrator.init (pools : List String) (sql_executors : List String)
    (default_database : Option String) (has_selector : Bool)
    (database_descriptions : List (String × String)) (max_retries : Nat)
    (rate_limiter_configured : Bool) (validation_enabled : Bool) :
    Orchestrator :=
  { pools, sql_executors
    default_database := effective_default_database default_database sql_executors
    has_selector, database_descriptions, max_retries
    rate_limiter_configured, validation_enabled }

/-- `QueryOrchestrator._resolve_database`.  `select_outcome` is the result
of the external `database_selector.select` call (`.error` = any exception
raised by it), consulted only when the selection branch is reached. -/
def resolve_database (o : Orchestrator) (database : Option String)
    (select_outcome : Except String SelectionResult) :
    Except PyExc String :=
  match database with
  | some d =>
    -- 1. explicitly specified: validate and use it
    if ¬ o.pools.contains d then
      .error (.PgMcpErr .DATABASE_ERROR
        ("Database " ++ "'" ++ d ++ "'" ++ " not found") o.pools "")
    else .ok d
  | none =>
    let available_dbs := o.pools
    match available_dbs with
    -- 2. no databases configured
    | [] => .error (.PgMcpErr .DATABASE_ERROR "No databases configured" [] "")
    -- 3. only one database available: use it
    | [only_db] => .ok only_db
    | _ =>
      -- 4. intelligent selection if selector and descriptions available
      let selected : Option String :=
        if o.has_selector ∧ o.database_descriptions ≠ [] then
          match select_outcome with
          | .ok result =>
            if o.pools.contains result.database then some result.database
            else none  -- selector returned a database that is not in pools
          | .error _ => none  -- selection failed: logged, fall through
        else none
      match selected with
      | some db => .ok db
      | none =>
        -- 5. fall back to default database if configured and valid
        match o.default_database with
        | some d =>
          if o.pools.contains d then .ok d
          else
            .error (.PgMcpErr .DATABASE_ERROR
              "Multiple databases available, please specify which to query"
              available_dbs
              ("Add " ++ "'" ++ "database" ++ "'" ++
                " parameter or configure PG_DEFAULT_DATABASE"))
        | none =>
          -- 6. cannot determine
          .error (.PgMcpErr .DATABASE_ERROR
            "Multiple databases available, please specify which to query"
            available_dbs
            ("Add " ++ "'" ++ "database" ++ "'" ++
              " parameter or configure PG_DEFAULT_DATABASE"))

/-- One generator invocation's keyword arguments, as recorded by the model
(instrumentation: the source passes these to `sql_generator.generate`). -/
structure GenCall where
  previous_attempt : Option String
  error_feedback : Option String
deriving DecidableEq, Repr

/-- The "all clear" `ValidationResult` built on validation success
(orchestrator.py lines 659-665). -/
def allClearValidationResult : ValidationResult :=
  { is_valid := true, is_select := true, allows_data_modification := false,
    uses_blocked_functions := [], error_message := none }

/-- Loop body of `QueryOrchestrator._generate_sql_with_retry`.
`remaining = max_retries - attempt` (so `attempt < max_retries` iff
`remaining > 0`); `gen n` is the outcome of the n-th generator call
(`.error .TimeoutError` covers both a rate-limit permit timeout and a
`TimeoutError` escaping the generator); `validator` is
`sql_validator.validate_or_raise` applied to the generated SQL.  Returns
the generated SQL, the built `ValidationResult`, and the recorded
generator calls. -/
def generate_sql_with_retry_go (o : Orchestrator)
    (validator : String → Except ValidationError Unit)
    (gen : Nat → Except PyExc String)
    (remaining attempt : Nat)
    (previous_sql error_feedback : Option String)
    (calls : List GenCall) :
    Except PyExc (String × ValidationResult × List GenCall) :=
  let calls := calls ++ [⟨previous_sql, error_feedback⟩]
  match gen attempt with
  | .error .TimeoutError =>
    if o.rate_limiter_configured then
      -- `except TimeoutError` around the rate-limited generate call
      .error (.PgMcpErr .LLM_ERROR
        "LLM rate limit exceeded. Too many concurrent LLM calls." [] "")
    else
      -- no TimeoutError handler without a limiter; the generic
      -- `except Exception` wraps it as an LLMError
      .error (.PgMcpErr .LLM_ERROR
        ("SQL generation failed unexpectedly: " ++ PyExc.str .TimeoutError)
        [] "")
  | .error (.PgMcpErr code m a h) =>
    -- `except (LLMError, SecurityViolationError, SQLParseError): raise`
    if code = .LLM_ERROR ∨ code = .SECURITY_VIOLATION ∨
        code = .SQL_PARSE_ERROR then
      .error (.PgMcpErr code m a h)
    else
      .error (.PgMcpErr .LLM_ERROR
        ("SQL generation failed unexpectedly: " ++ m) [] "")
  | .error (.OtherExc _ m) =>
    .error (.PgMcpErr .LLM_ERROR
      ("SQL generation failed unexpectedly: " ++ m) [] "")
  | .ok generated_sql =>
    match validator generated_sql with
    | .error validation_error =>
      match remaining with
      | r + 1 =>
        -- attempt < max_retries: retry with feedback
        generate_sql_with_retry_go o validator gen r (attempt + 1)
          (some generated_sql) (some validation_error.toString) calls
      | 0 =>
        -- out of retries: record failure and propagate the validation error
        .error (match validation_error with
          | .SecurityViolationError m => .PgMcpErr .SECURITY_VIOLATION m [] ""
          | .SQLParseError m => .PgMcpErr .SQL_PARSE_ERROR m [] "")
    | .ok _ =>
      -- validation successful
      .ok (generated_sql, allClearValidationResult, calls)

/-- `QueryOrchestrator._generate_sql_with_retry` (`circuit_allow` is the
outcome of `circuit_breaker.allow_request()`). -/
def generate_sql_with_retry (o : Orchestrator)
    (validator : String → Except ValidationError Unit)
    (gen : Nat → Except PyExc String) (circuit_allow : Bool) :
    Except PyExc (String × ValidationResult × List GenCall) :=
  if ¬ circuit_allow then
    .error (.PgMcpErr .LLM_ERROR
      "SQL generation service is temporarily unavailable (circuit breaker open)"
      [] "")
  else
    generate_sql_with_retry_go o validator gen o.max_retries 0 none none []

/-- `QueryOrchestrator._validate_results_safely` (`result_validate` is the
outcome of the external `result_validator.validate` call, reduced to the
confidence it reports; `.error` = any exception raised by it). -/
def validate_results_safely (validation_enabled : Bool)
    (result_validate : Except PyExc Nat) : Nat :=
  if ¬ validation_enabled then 100
  else
    match result_validate with
    | .ok confidence => confidence
    | .error _ => 100  -- log but do not fail the query

/-- Per-request outcomes of every external collaborator the orchestrator
touches. -/
structure Collaborators where
  /-- `database_selector.select` outcome. -/
  select_outcome : Except String SelectionResult
  /-- `circuit_breaker.allow_request()`. -/
  circuit_allow : Bool
  /-- `schema_cache.get` returned a schema (cache hit). -/
  schema_cached : Bool
  /-- `schema_cache.load` outcome, consulted on a cache miss. -/
  schema_load : Except PyExc Unit
  /-- `sql_generator.generate` outcome, per call index. -/
  gen : Nat → Except PyExc String
  /-- `sql_validator.validate_or_raise` on the generated SQL (the parse of
  the candidate SQL is folded into this oracle). -/
  validator : String → Except ValidationError Unit
  /-- the `for_queries` permit acquisition times out. -/
  query_permit_timeout : Bool
  /-- `sql_executor.execute` outcome: `(rows, total_count)`. -/
  executor : Except PyExc (List Row × Nat)
  /-- `result_validator.validate` outcome (its reported confidence). -/
  result_validate : Except PyExc Nat

/-- `QueryOrchestrator._execute_query_internal` (request id, timing and
metrics are logging-only and not modelled; `execution_time_ms` is fixed to
0). -/
def execute_query_internal (o : Orchestrator) (C : Collaborators)
    (request : QueryRequest) (database_name : String) :
    Except PyExc QueryResponse :=
  -- Step 2: get schema from cache, loading on a miss
  let schema_step : Except PyExc Unit :=
    if ¬ C.schema_cached then
      if ¬ o.pools.contains database_name then
        .error (.PgMcpErr .DATABASE_ERROR
          ("No connection pool available for database " ++ "'" ++
            database_name ++ "'") [] "")
      else
        match C.schema_load with
        | .error e =>
          -- `except Exception` around the load wraps anything as SchemaLoadError
          .error (.PgMcpErr .SCHEMA_LOAD_ERROR
            ("Failed to load schema for database " ++ "'" ++ database_name ++
              "'" ++ ": " ++ e.str) [] "")
        | .ok _ => .ok ()
    else .ok ()
  match schema_step with
  | .error e => .error e
  | .ok _ =>
    -- Step 3: generate and validate SQL with retry logic
    match generate_sql_with_retry o C.validator C.gen C.circuit_allow with
    | .error e => .error e
    | .ok (generated_sql, validation_result, _calls) =>
      -- tokens_used is initialized to None and never assigned in the source
      let tokens_used : Option Nat := none
      -- Step 4: if return_type is SQL, return early
      if request.return_type = .SQL then
        .ok { success := true, generated_sql := some generated_sql,
              validation := some validation_result, data := none,
              error := none, confidence := 100, tokens_used }
      else
        -- Step 5: execute SQL
        match C.executor with
        | .error e => .error e
        | .ok (results, _total_count) =>
          -- Step 6: validate results (non-blocking)
          let result_confidence :=
            validate_results_safely o.validation_enabled C.result_validate
          -- Step 7: build successful response
          let query_result : QueryResult :=
            { columns := (results.head?.map Row.keys).getD []
              rows := results
              row_count := results.length
              execution_time_ms := 0 }
          .ok { success := true, generated_sql := some generated_sql,
                validation := some validation_result,
                data := some query_result, error := none,
                confidence := result_confidence, tokens_used }

/-- A `{success:false, error:{...}}` response with confidence 0, as built
by every failure arm of `execute_query`. -/
def failureResponse (e : ErrorDetail) : QueryResponse :=
  { success := false, generated_sql := none, validation := none,
    data := none, error := some e, confidence := 0, tokens_used := none }

/-- `QueryOrchestrator.execute_query`. -/
def execute_query (o : Orchestrator) (C : Collaborators)
    (request : QueryRequest) : QueryResponse :=
  -- resolve the database early; `except DatabaseError` → error response
  match resolve_database o request.database C.select_outcome with
  | .error (.PgMcpErr code m a h) => failureResponse ⟨code, m, a, h⟩
  | .error _ =>
    -- unreachable: _resolve_database raises only DatabaseError
    failureResponse ⟨.INTERNAL_ERROR, "", [], ""⟩
  | .ok database_name =>
    -- apply rate limiting if enabled, then run the internal pipeline
    let internal_outcome : Except PyExc QueryResponse :=
      if o.rate_limiter_configured ∧ C.query_permit_timeout then
        -- permit acquisition raised TimeoutError; the pipeline never runs
        .error .TimeoutError
      else
        execute_query_internal o C request database_name
    if o.rate_limiter_configured then
      match internal_outcome with
      | .ok response => response
      | .error .TimeoutError =>
        -- inner `except TimeoutError` scoped over the whole rate-limited block
        failureResponse ⟨.RATE_LIMIT_EXCEEDED,
          "Rate limit exceeded. Too many concurrent requests.", [], ""⟩
      | .error (.PgMcpErr code m a h) =>
        -- outer `except PgMcpError`
        failureResponse ⟨code, m, a, h⟩
      | .error (.OtherExc _ m) =>
        -- outer `except Exception`
        failureResponse ⟨.INTERNAL_ERROR, "Internal server error: " ++ m,
          [], ""⟩
    else
      match internal_outcome with
      | .ok response => response
      | .error (.PgMcpErr code m a h) => failureResponse ⟨code, m, a, h⟩
      | .error e =>
        -- no inner TimeoutError handler: `except Exception` catches it
        failureResponse ⟨.INTERNAL_ERROR,
          "Internal server error: " ++ e.str, [], ""⟩

/-! ## Helper lemmas -/

theorem charListLe_total (as bs : List Char) :
    charListLe as bs = true ∨ charListLe bs as = true := by
  induction as generalizing bs with
  | nil => left; simp [charListLe]
  | cons a as ih =>
    cases bs with
    | nil => right; simp [charListLe]
    | cons b bs =>
      rcases lt_trichotomy a b with h | h | h
      · left; simp [charListLe, h]
      · subst h
        rcases ih bs with h2 | h2
        · left; simp [charListLe, lt_irrefl, h2]
        · right; simp [charListLe, lt_irrefl, h2]
      · right; simp [charListLe, h]

theorem charListLt_of_not_le {as bs : List Char}
    (h : charListLe as bs = false) : charListLt bs as = true := by
  induction as generalizing bs with
  | nil => simp [charListLe] at h
  | cons a as ih =>
    cases bs with
    | nil => simp [charListLt]
    | cons b bs =>
      by_cases hab : a < b
      · simp [charListLe, hab] at h
      · by_cases hba : b < a
        · simp [charListLt, hba]
        · have hEq : a = b := le_antisymm (not_lt.mp hba) (not_lt.mp hab)
          subst hEq
          simp [charListLe, lt_irrefl] at h
          simp [charListLt, lt_irrefl, ih h]

theorem charListLt_of_le_of_ne {as bs : List Char}
    (h : charListLe as bs = true) (hne : as ≠ bs) : charListLt as bs = true := by
  induction as generalizing bs with
  | nil =>
    cases bs with
    | nil => exact absurd rfl hne
    | cons b bs => simp [charListLt]
  | cons a as ih =>
    cases bs with
    | nil => simp [charListLe] at h
    | cons b bs =>
      by_cases hab : a < b
      · simp [charListLt, hab]
      · by_cases hba : b < a
        · simp [charListLe, hab, hba] at h
        · have hEq : a = b := le_antisymm (not_lt.mp hba) (not_lt.mp hab)
          subst hEq
          simp [charListLe, lt_irrefl] at h
          have hne2 : as ≠ bs := by
            intro hx; exact hne (by rw [hx])
          simp [charListLt, lt_irrefl, ih h hne2]

theorem charListLt_trans {as bs cs : List Char}
    (h1 : charListLt as bs = true) (h2 : charListLt bs cs = true) :
    charListLt as cs = true := by
  induction as generalizing bs cs with
  | nil =>
    cases bs with
    | nil => simp [charListLt] at h1
    | cons b bs =>
      cases cs with
      | nil => simp [charListLt] at h2
      | cons c cs => simp [charListLt]
  | cons a as ih =>
    cases bs with
    | nil => simp [charListLt] at h1
    | cons b bs =>
      cases cs with
      | nil => simp [charListLt] at h2
      | cons c cs =>
        by_cases hab : a < b
        · by_cases hbc : b < c
          · simp [charListLt, lt_trans hab hbc]
          · by_cases hcb : c < b
            · simp [charListLt, hbc, hcb] at h2
            · have : b = c := le_antisymm (not_lt.mp hcb) (not_lt.mp hbc)
              subst this
              simp [charListLt, hab]
        · by_cases hba : b < a
          · simp [charListLt, hab, hba] at h1
          · have : a = b := le_antisymm (not_lt.mp hba) (not_lt.mp hab)
            subst this
            simp [charListLt, lt_irrefl] at h1
            by_cases hbc : a < c
            · simp [charListLt, hbc]
            · by_cases hcb : c < a
              · simp [charListLt, hbc, hcb] at h2
              · have : a = c := le_antisymm (not_lt.mp hcb) (not_lt.mp hbc)
                subst this
                simp [charListLt, lt_irrefl] at h2 ⊢
                exact ih h1 h2

theorem charListLt_irrefl (as : List Char) : charListLt as as = false := by
  induction as with
  | nil => simp [charListLt]
  | cons a as ih => simp [charListLt, lt_irrefl, ih]

theorem string_ne_of_data_ne {a b : String} (h : a ≠ b) : a.data ≠ b.data := by
  intro hd
  apply h
  cases a; cases b
  exact congrArg String.mk hd

theorem strLt_of_not_le {a b : String} (h : strLe a b = false) :
    strLt b a = true :=
  charListLt_of_not_le h

theorem strLt_of_le_of_ne {a b : String} (h : strLe a b = true) (hne : a ≠ b) :
    strLt a b = true :=
  charListLt_of_le_of_ne h (string_ne_of_data_ne hne)

theorem strLt_trans {a b c : String} (h1 : strLt a b = true)
    (h2 : strLt b c = true) : strLt a c = true :=
  charListLt_trans h1 h2

theorem strLt_ne {a b : String} (h : strLt a b = true) : a ≠ b := by
  intro hEq
  subst hEq
  rw [strLt, charListLt_irrefl] at h
  exact Bool.false_ne_true h

/-- The strict string order used to state sortedness. -/
def strLtP (a b : String) : Prop := strLt a b = true

theorem mem_insertSorted (x a : String) (l : List String) :
    a ∈ insertSorted x l ↔ a = x ∨ a ∈ l := by
  induction l with
  | nil => simp [insertSorted]
  | cons y ys ih =>
    by_cases h1 : strLe x y
    · by_cases h2 : x = y
      · subst h2
        simp only [insertSorted, h1, if_true, if_pos rfl]
        simp
      · simp only [insertSorted, h1, if_true, if_neg h2]
        simp
    · simp only [insertSorted, h1, if_false]
      simp [ih]
      tauto

theorem pairwise_insertSorted (x : String) {l : List String}
    (h : List.Pairwise strLtP l) :
    List.Pairwise strLtP (insertSorted x l) := by
  induction l with
  | nil => simp [insertSorted, List.Pairwise]
  | cons y ys ih =>
    rcases List.pairwise_cons.mp h with ⟨hy, hys⟩
    by_cases h1 : strLe x y
    · by_cases h2 : x = y
      · subst h2
        simpa only [insertSorted, h1, if_true, if_pos rfl] using h
      · have hxy : strLtP x y := strLt_of_le_of_ne (by simpa using h1) h2
        simp only [insertSorted, h1, if_true, if_neg h2]
        refine List.pairwise_cons.mpr ⟨?_, h⟩
        intro b hb
        rcases List.mem_cons.mp hb with rfl | hb
        · exact hxy
        · exact strLt_trans hxy (hy b hb)
    · have hyx : strLtP y x :=
        strLt_of_not_le (by simpa using h1)
      simp only [insertSorted, h1, if_false]
      refine List.pairwise_cons.mpr ⟨?_, ih hys⟩
      intro b hb
      rcases (mem_insertSorted x b ys).mp hb with rfl | hb
      · exact hyx
      · exact hy b hb

theorem sortedUnique_pairwise (l : List String) :
    List.Pairwise strLtP (sortedUnique l) := by
  induction l with
  | nil => simp [sortedUnique, List.Pairwise]
  | cons x xs ih => exact pairwise_insertSorted x ih

theorem mem_sortedUnique (a : String) (l : List String) :
    a ∈ sortedUnique l ↔ a ∈ l := by
  induction l with
  | nil => simp [sortedUnique]
  | cons x xs ih =>
    show a ∈ insertSorted x (sortedUnique xs) ↔ _
    rw [mem_insertSorted, ih]
    simp

theorem sortedUnique_nodup (l : List String) : (sortedUnique l).Nodup :=
  (sortedUnique_pairwise l).imp fun h => strLt_ne h

theorem pairwise_strLt_eq_of_mem_iff :
    ∀ {l₁ l₂ : List String}, List.Pairwise strLtP l₁ →
      List.Pairwise strLtP l₂ → (∀ a, a ∈ l₁ ↔ a ∈ l₂) → l₁ = l₂ := by
  intro l₁
  induction l₁ with
  | nil =>
    intro l₂ _ _ hmem
    cases l₂ with
    | nil => rfl
    | cons b bs => exact absurd ((hmem b).mpr (by simp)) (by simp)
  | cons a as ih =>
    intro l₂ h₁ h₂ hmem
    cases l₂ with
    | nil => exact absurd ((hmem a).mp (by simp)) (by simp)
    | cons b bs =>
      rcases List.pairwise_cons.mp h₁ with ⟨ha, has⟩
      rcases List.pairwise_cons.mp h₂ with ⟨hb, hbs⟩
      have hab : a = b := by
        rcases List.mem_cons.mp ((hmem a).mp (by simp)) with h | hA
        · exact h
        · rcases List.mem_cons.mp ((hmem b).mpr (by simp)) with h | hB
          · exact h.symm
          · -- a ∈ bs and b ∈ as force strLt b a and strLt a b: impossible
            have h1 := hb a hA
            have h2 := ha b hB
            exact absurd (strLt_trans h1 h2) (by
              intro hc
              exact strLt_ne hc rfl)
      subst hab
      have : as = bs := by
        apply ih has hbs
        intro c
        constructor
        · intro hc
          have hca : c ≠ a := fun hEq => strLt_ne (ha c hc) (by rw [hEq])
          rcases List.mem_cons.mp ((hmem c).mp (List.mem_cons_of_mem a hc))
            with h | h
          · exact absurd h hca
          · exact h
        · intro hc
          have hca : c ≠ a := fun hEq => strLt_ne (hb c hc) (by rw [hEq])
          rcases List.mem_cons.mp ((hmem c).mpr (List.mem_cons_of_mem a hc))
            with h | h
          · exact absurd h hca
          · exact h
      rw [this]

theorem sortedUnique_idem (l : List String) :
    sortedUnique (sortedUnique l) = sortedUnique l := by
  apply pairwise_strLt_eq_of_mem_iff (sortedUnique_pairwise _)
    (sortedUnique_pairwise _)
  intro a
  rw [mem_sortedUnique, mem_sortedUnique]

theorem sortedUnique_append_self (l : List String) :
    sortedUnique (l ++ l) = sortedUnique l := by
  apply pairwise_strLt_eq_of_mem_iff (sortedUnique_pairwise _)
    (sortedUnique_pairwise _)
  intro a
  rw [mem_sortedUnique, mem_sortedUnique]
  simp

theorem findSome?_isSome_iff {α β : Type} (f : α → Option β) (l : List α) :
    (l.findSome? f).isSome ↔ ∃ a ∈ l, (f a).isSome := by
  induction l with
  | nil => simp
  | cons a l ih =>
    cases h : f a with
    | some b => simp [List.findSome?_cons, h]
    | none => simp [List.findSome?_cons, h, ih]

/-! ## Claims -/

/-- C1: for every parsed single-statement input, `validate_or_raise` applies
the statement-type check as specified: hard-forbidden types (DROP, CREATE,
ALTER, GRANT, REVOKE, SET, USE, generic Command) are rejected whatever the
configuration; top-level write statements (INSERT, UPDATE, DELETE, MERGE)
pass the type check exactly when `allow_write_operations` is configured,
otherwise the error names the statement kind; any other statement must be
SELECT/UNION/INTERSECT/EXCEPT or is rejected as an unrecognized statement
type; and `validate_or_raise` raises `SecurityViolationError` with the type
check's message on any single-statement input whose main query fails it. -/
theorem statement_type_check_spec (v : SQLValidator) :
    (∀ t ∈ FORBIDDEN_STATEMENT_TYPES,
      check_statement_type v t =
        some (strUpper t.typeName ++ " statements are not allowed."))
    ∧ (∀ t ∈ WRITE_STATEMENT_TYPES, v.allow_write_operations = true →
        check_statement_type v t = none)
    ∧ (∀ t ∈ WRITE_STATEMENT_TYPES, v.allow_write_operations = false →
        check_statement_type v t =
          some (strUpper t.typeName ++
            " statements are not allowed. Write operations are disabled."))
    ∧ (∀ t ∈ ALLOWED_STATEMENT_TYPES, check_statement_type v t = none)
    ∧ (∀ t, t ∉ FORBIDDEN_STATEMENT_TYPES → t ∉ WRITE_STATEMENT_TYPES →
        t ∉ ALLOWED_STATEMENT_TYPES →
        check_statement_type v t =
          some ("Statement type " ++ t.typeName ++
            " is not allowed. Only SELECT queries are permitted."))
    ∧ (∀ (sql : String) (stmt : Statement) (error : String),
        strStrip sql ≠ "" → stmt.nodeType ≠ .Command →
        stmt.nodeType ≠ .With →
        check_statement_type v stmt.nodeType = some error →
        validate_or_raise v sql (.ok [some stmt]) =
          .error (.SecurityViolationError error)) := by
  refine ⟨?_, ?_, ?_, ?_, ?_, ?_⟩
  · intro t ht
    fin_cases ht <;> rfl
  · intro t ht hw
    fin_cases ht <;> simp [check_statement_type, hw] <;> rfl
  · intro t ht hw
    fin_cases ht <;> simp [check_statement_type, hw] <;> rfl
  · intro t ht
    fin_cases ht <;> rfl
  · intro t h1 h2 h3
    cases t <;>
      first
        | rfl
        | (exfalso
           simp [FORBIDDEN_STATEMENT_TYPES, WRITE_STATEMENT_TYPES,
             ALLOWED_STATEMENT_TYPES] at h1 h2 h3)
  · intro sql stmt error h1 h2 h3 h4
    simp [validate_or_raise, h1, h2, h3, h4]

/-- C1 witness: DROP is rejected with writes enabled, and a bare DELETE is
rejected through `validate_or_raise` naming the statement kind when writes
are disabled. -/
theorem statement_type_check_spec_witness :
    check_statement_type (SQLValidator.init ⟨true, []⟩ [] [] false) .Drop =
      some "DROP statements are not allowed."
    ∧ check_statement_type (SQLValidator.init ⟨true, []⟩ [] [] false)
        .Insert = none
    ∧ validate_or_raise (SQLValidator.init ⟨false, []⟩ [] [] false)
        "DELETE FROM orders" (.ok [some { nodeType := .Delete }]) =
      .error (.SecurityViolationError
        "DELETE statements are not allowed. Write operations are disabled.") := by
  refine ⟨?_, ?_, ?_⟩
  · rw [(statement_type_check_spec (SQLValidator.init ⟨true, []⟩ [] [] false)).1
      .Drop (by decide)]
    decide
  · exact (statement_type_check_spec
      (SQLValidator.init ⟨true, []⟩ [] [] false)).2.1 .Insert (by decide) rfl
  · exact (statement_type_check_spec
      (SQLValidator.init ⟨false, []⟩ [] [] false)).2.2.2.2.2
      "DELETE FROM orders" { nodeType := .Delete }
      "DELETE statements are not allowed. Write operations are disabled."
      (by decide) (by decide) (by decide) (by decide)

/-- C2: more than one parsed statement raises `SecurityViolationError`
whose message mentions "multiple" (its lowercasing starts with it); zero
parsed statements (including a comment-only `None` entry) and empty or
whitespace-only input raise `SQLParseError`. -/
theorem multiple_and_zero_statement_errors (v : SQLValidator) (sql : String)
    (parsed : List (Option Statement)) :
    (strStrip sql = "" →
      validate_or_raise v sql (.ok parsed) =
        .error (.SQLParseError "SQL query cannot be empty"))
    ∧ (strStrip sql ≠ "" → parsed.length > 1 →
        validate_or_raise v sql (.ok parsed) =
          .error (.SecurityViolationError
            "Multiple statements not allowed. Only single SELECT queries are permitted.")
        ∧ "multiple".data.isPrefixOf
            (strLower
              "Multiple statements not allowed. Only single SELECT queries are permitted.").data
          = true)
    ∧ (strStrip sql ≠ "" →
        validate_or_raise v sql (.ok []) =
          .error (.SQLParseError "No valid SQL statement found"))
    ∧ (strStrip sql ≠ "" →
        validate_or_raise v sql (.ok [none]) =
          .error (.SQLParseError "No valid SQL statement found")) := by
  refine ⟨?_, ?_, ?_, ?_⟩
  · intro h
    simp [validate_or_raise, h]
  · intro h hlen
    refine ⟨?_, by decide⟩
    simp [validate_or_raise, h, hlen]
  · intro h
    simp [validate_or_raise, h]
  · intro h
    simp [validate_or_raise, h]

/-- C2 witness: empty input, a two-statement input, and comment-only input
at concrete values. -/
theorem multiple_and_zero_statement_errors_witness :
    validate_or_raise (SQLValidator.init ⟨false, []⟩ [] [] false) "   "
      (.ok [some { nodeType := .Select }]) =
      .error (.SQLParseError "SQL query cannot be empty")
    ∧ validate_or_raise (SQLValidator.init ⟨false, []⟩ [] [] false)
        "SELECT 1; SELECT 2"
        (.ok [some { nodeType := .Select }, some { nodeType := .Select }]) =
      .error (.SecurityViolationError
        "Multiple statements not allowed. Only single SELECT queries are permitted.")
    ∧ validate_or_raise (SQLValidator.init ⟨false, []⟩ [] [] false)
        "-- comment only" (.ok [none]) =
      .error (.SQLParseError "No valid SQL statement found") := by
  refine ⟨?_, ?_, ?_⟩
  · exact (multiple_and_zero_statement_errors _ "   "
      [some { nodeType := .Select }]).1 (by decide)
  · exact ((multiple_and_zero_statement_errors _ "SELECT 1; SELECT 2"
      [some { nodeType := .Select }, some { nodeType := .Select }]).2.1
      (by decide) (by decide)).1
  · exact (multiple_and_zero_statement_errors _ "-- comment only"
      [none]).2.2.2 (by decide)

/-- C3: a command-form statement with keyword EXPLAIN is accepted exactly
when `allow_explain` is configured (the error is `SecurityViolationError`
when it is not), with no inspection of anything beyond the keyword — so an
`EXPLAIN DELETE ...` statement (arbitrary remaining observable content) is
accepted when `allow_explain` is true; any other command keyword is
rejected with `SecurityViolationError`. -/
theorem explain_command_handling (v : SQLValidator) (sql : String)
    (stmt : Statement) (h1 : strStrip sql ≠ "")
    (hc : stmt.nodeType = .Command) :
    (strUpper stmt.thisCommand = "EXPLAIN" →
      (v.allow_explain = true →
        validate_or_raise v sql (.ok [some stmt]) = .ok ())
      ∧ (v.allow_explain = false →
          validate_or_raise v sql (.ok [some stmt]) =
            .error (.SecurityViolationError
              "EXPLAIN statements are not allowed")))
    ∧ (strUpper stmt.thisCommand ≠ "EXPLAIN" →
        validate_or_raise v sql (.ok [some stmt]) =
          .error (.SecurityViolationError
            ("Command " ++ "'" ++ strUpper stmt.thisCommand ++ "'" ++
              " is not allowed. Only SELECT queries are permitted."))) := by
  constructor
  · intro he
    constructor
    · intro ha
      simp [validate_or_raise, h1, hc, he, ha]
    · intro ha
      simp [validate_or_raise, h1, hc, he, ha]
  · intro he
    simp [validate_or_raise, h1, hc, he]

/-- C3 witness: `EXPLAIN DELETE FROM t` (a Command whose observable content
mentions an inner DELETE) is accepted when `allow_explain` is true,
rejected when false; `VACUUM` is rejected outright. -/
theorem explain_command_handling_witness :
    validate_or_raise (SQLValidator.init ⟨false, []⟩ [] [] true)
      "EXPLAIN DELETE FROM t"
      (.ok [some { nodeType := .Command, thisCommand := "EXPLAIN"
                   subqueryInners := [some .Delete] }]) = .ok ()
    ∧ validate_or_raise (SQLValidator.init ⟨false, []⟩ [] [] false)
        "EXPLAIN SELECT 1"
        (.ok [some { nodeType := .Command, thisCommand := "EXPLAIN" }]) =
      .error (.SecurityViolationError "EXPLAIN statements are not allowed")
    ∧ validate_or_raise (SQLValidator.init ⟨false, []⟩ [] [] true) "VACUUM"
        (.ok [some { nodeType := .Command, thisCommand := "VACUUM" }]) =
      .error (.SecurityViolationError
        ("Command " ++ "'" ++ "VACUUM" ++ "'" ++
          " is not allowed. Only SELECT queries are permitted.")) := by
  refine ⟨?_, ?_, ?_⟩
  · exact ((explain_command_handling _ "EXPLAIN DELETE FROM t"
      { nodeType := .Command, thisCommand := "EXPLAIN",
        subqueryInners := [some .Delete] } (by decide) rfl).1
      (by decide)).1 rfl
  · exact ((explain_command_handling _ "EXPLAIN SELECT 1"
      { nodeType := .Command, thisCommand := "EXPLAIN" } (by decide) rfl).1
      (by decide)).2 rfl
  · have h := (explain_command_handling
      (SQLValidator.init ⟨false, []⟩ [] [] true) "VACUUM"
      { nodeType := .Command, thisCommand := "VACUUM" } (by decide) rfl).2
      (by decide)
    rw [h]
    rfl

/-- C4: with a configured (nonempty) blocked-column list, the blocked-column
check fires exactly when some column reference matches a blocked entry by
its unqualified name or by its `table.column` qualified form,
case-insensitively (both sides lowercased); on a plain SELECT statement
with no other findings, `validate_or_raise` rejects exactly in that case;
and substring matches never trigger: `password_hash` passes when only
`password` is blocked. -/
theorem blocked_columns_exact_match (config : SecurityConfig)
    (bt bc : List String) (ae : Bool) (sql : String) (stmt : Statement)
    (hbc : bc ≠ []) :
    ((check_blocked_columns (SQLValidator.init config bt bc ae) stmt).isSome
      ↔ ∃ c ∈ stmt.columns,
          strLower c.name ∈ bc.map strLower ∨
          (c.table ≠ "" ∧
            strLower c.table ++ "." ++ strLower c.name ∈ bc.map strLower))
    ∧ (strStrip sql ≠ "" → stmt.nodeType = .Select → stmt.funcNames = [] →
        stmt.tableNames = [] → stmt.subqueryInners = [] →
        ((∃ e, validate_or_raise (SQLValidator.init config bt bc ae) sql
            (.ok [some stmt]) = .error e) ↔
          (check_blocked_columns (SQLValidator.init config bt bc ae)
            stmt).isSome))
    ∧ check_blocked_columns (SQLValidator.init config bt ["password"] ae)
        { nodeType := .Select, columns := [⟨"password_hash", ""⟩] } =
      none := by
  have hmap : (bc.map strLower) ≠ [] := by
    intro h
    exact hbc (List.map_eq_nil_iff.mp h)
  refine ⟨?_, ?_, ?_⟩
  · rw [check_blocked_columns]
    simp only [SQLValidator.init]
    rw [if_neg hmap, findSome?_isSome_iff]
    refine exists_congr fun c => and_congr_right fun _ => ?_
    split_ifs with hA hT hQ
    · simp only [Option.isSome_some, true_iff]
      exact Or.inl (by simpa using hA)
    · simp only [Option.isSome_some, true_iff]
      exact Or.inr ⟨hT, by simpa using hQ⟩
    · refine iff_of_false (by simp) ?_
      rintro (hm | ⟨ht2, hm⟩)
      · exact hA (by simpa using hm)
      · exact hQ (by simpa using hm)
    · refine iff_of_false (by simp) ?_
      rintro (hm | ⟨ht2, hm⟩)
      · exact hA (by simpa using hm)
      · exact hT ht2
  · intro h1 h2 h3 h4 h5
    have hst : check_statement_type (SQLValidator.init config bt bc ae)
        stmt.nodeType = none := by
      rw [h2]; rfl
    have hfn : check_dangerous_functions (SQLValidator.init config bt bc ae)
        stmt = none := by
      rw [check_dangerous_functions, h3]; rfl
    have htb : check_blocked_tables (SQLValidator.init config bt bc ae)
        stmt = none := by
      rw [check_blocked_tables, h4]
      simp
    have hsq : check_subquery_safety stmt = none := by
      rw [check_subquery_safety, h5]; rfl
    have hnc : stmt.nodeType ≠ .Command := by rw [h2]; intro h; cases h
    have hnw : stmt.nodeType ≠ .With := by rw [h2]; intro h; cases h
    cases hcc : check_blocked_columns (SQLValidator.init config bt bc ae)
        stmt with
    | some e =>
      refine iff_of_true ⟨.SecurityViolationError e, ?_⟩ (by simp)
      simp [validate_or_raise, h1, hnc, hnw, hst, hfn, htb, hcc]
    | none =>
      refine iff_of_false ?_ (by simp)
      rintro ⟨e, he⟩
      rw [show validate_or_raise (SQLValidator.init config bt bc ae) sql
          (.ok [some stmt]) = .ok () from by
        simp [validate_or_raise, h1, hnc, hnw, hst, hfn, htb, hcc, hsq]] at he
      simp at he
  · rw [check_blocked_columns]
    simp only [SQLValidator.init]
    rfl

/-- C4 witness: with `password` blocked, a query referencing
`password_hash` passes the blocked-column check while an uppercase
`PassWord` reference and a qualified `Users.SSN` reference (against blocked
`users.ssn`) are caught. -/
theorem blocked_columns_exact_match_witness :
    (check_blocked_columns
        (SQLValidator.init ⟨false, []⟩ [] ["password"] false)
        { nodeType := .Select, columns := [⟨"password_hash", ""⟩] } = none)
    ∧ ((check_blocked_columns
        (SQLValidator.init ⟨false, []⟩ [] ["password"] false)
        { nodeType := .Select, columns := [⟨"PassWord", ""⟩] }).isSome ↔
          True)
    ∧ ((check_blocked_columns
        (SQLValidator.init ⟨false, []⟩ [] ["users.ssn"] false)
        { nodeType := .Select, columns := [⟨"SSN", "Users"⟩] }).isSome ↔
          True) := by
  refine ⟨?_, ?_, ?_⟩
  · exact (blocked_columns_exact_match ⟨false, []⟩ [] ["password"] false ""
      { nodeType := .Select, columns := [⟨"password_hash", ""⟩] }
      (by decide)).2.2
  · rw [(blocked_columns_exact_match ⟨false, []⟩ [] ["password"] false ""
      { nodeType := .Select, columns := [⟨"PassWord", ""⟩] } (by decide)).1]
    simp only [iff_true]
    exact ⟨⟨"PassWord", ""⟩, by decide, by decide⟩
  · rw [(blocked_columns_exact_match ⟨false, []⟩ [] ["users.ssn"] false ""
      { nodeType := .Select, columns := [⟨"SSN", "Users"⟩] } (by decide)).1]
    simp only [iff_true]
    exact ⟨⟨"SSN", "Users"⟩, by decide, by decide⟩

/-- C5 counterexample: two pools `db1`,`db2`, constructed with NO default
database and NO selector — yet resolution of a null database succeeds with
`db1` instead of failing, because `__init__` silently substitutes the first
SQL-executor key as the default. -/
theorem resolve_database_two_pools_no_default_counterexample :
    resolve_database
      (Orchestrator.init ["db1", "db2"] ["db1", "db2"] none false [] 3
        false true)
      none (.error "no selector configured") = .ok "db1" := by
  rfl

/-- C5 (amended): with at least two pools, no selector, and no usable
default — the effective `default_database` (the configured one, or in its
absence the first SQL-executor key) being absent from the pools — resolving
a null database fails with a `DatabaseError` whose details list all (both)
database names. -/
theorem resolve_database_no_valid_default (o : Orchestrator)
    (d1 d2 : String) (rest : List String)
    (sel : Except String SelectionResult)
    (hpools : o.pools = d1 :: d2 :: rest)
    (hsel : o.has_selector = false)
    (hdef : ∀ d, o.default_database = some d → o.pools.contains d = false) :
    resolve_database o none sel =
      .error (.PgMcpErr .DATABASE_ERROR
        "Multiple databases available, please specify which to query"
        o.pools
        ("Add " ++ "'" ++ "database" ++ "'" ++
          " parameter or configure PG_DEFAULT_DATABASE")) := by
  cases hdd : o.default_database with
  | none => simp [resolve_database, hpools, hsel, hdd]
  | some d =>
    have hc := hdef d hdd
    rw [hpools] at hc
    simp [resolve_database, hpools, hsel, hdd]
    simpa using hc

/-- C5 witness: the amended statement at the repository's own test
configuration (`default_database="nonexistent"`, pools `db1`,`db2`). -/
theorem resolve_database_no_valid_default_witness :
    resolve_database
      (Orchestrator.init ["db1", "db2"] ["db1", "db2"] (some "nonexistent")
        false [] 3 false true)
      none (.error "sel") =
      .error (.PgMcpErr .DATABASE_ERROR
        "Multiple databases available, please specify which to query"
        (Orchestrator.init ["db1", "db2"] ["db1", "db2"] (some "nonexistent")
          false [] 3 false true).pools
        ("Add " ++ "'" ++ "database" ++ "'" ++
          " parameter or configure PG_DEFAULT_DATABASE")) := by
  refine resolve_database_no_valid_default _ "db1" "db2" [] (.error "sel")
    rfl rfl ?_
  intro d hd
  have hd2 : (some "nonexistent" : Option String) = some d := hd
  injection hd2 with h
  subst h
  decide

/-- C9: `extract_tables` returns, for every parse result, a list that is
strictly sorted (Python's `sorted`), duplicate-free, and whose members are
exactly the lowercased non-empty referenced table names; `sorted(set(...))`
is idempotent and deduplicating; and the two-alias self-join over `users`
extracts exactly `["users"]`. -/
theorem extract_tables_sorted_dedup (p : Statement) :
    (∃ l, extract_tables (.ok p) = .ok l
      ∧ List.Pairwise strLtP l
      ∧ l.Nodup
      ∧ (∀ s, s ∈ l ↔
          s ∈ (p.tableNames.filter (fun n => n ≠ "")).map strLower))
    ∧ (∀ xs, sortedUnique (sortedUnique xs) = sortedUnique xs)
    ∧ (∀ xs, sortedUnique (xs ++ xs) = sortedUnique xs)
    ∧ extract_tables
        (.ok { nodeType := .Select, tableNames := ["users", "users"] }) =
      .ok ["users"] := by
  refine ⟨⟨sortedUnique
      ((p.tableNames.filter (fun n => n ≠ "")).map strLower),
      rfl, sortedUnique_pairwise _, sortedUnique_nodup _,
      fun s => mem_sortedUnique s _⟩,
    sortedUnique_idem, sortedUnique_append_self, ?_⟩
  rfl

/-- How `execute_query` post-processes the internal pipeline's outcome when
the database resolved and (if a limiter is configured) the query permit was
acquired. -/
theorem execute_query_via_internal (o : Orchestrator) (C : Collaborators)
    (request : QueryRequest) (db : String)
    (hres : resolve_database o request.database C.select_outcome = .ok db)
    (hpt : C.query_permit_timeout = false) :
    execute_query o C request =
      match execute_query_internal o C request db with
      | .ok r => r
      | .error .TimeoutError =>
        if o.rate_limiter_configured then
          failureResponse ⟨.RATE_LIMIT_EXCEEDED,
            "Rate limit exceeded. Too many concurrent requests.", [], ""⟩
        else
          failureResponse ⟨.INTERNAL_ERROR,
            "Internal server error: " ++ PyExc.str .TimeoutError, [], ""⟩
      | .error (.PgMcpErr code m a h) => failureResponse ⟨code, m, a, h⟩
      | .error (.OtherExc _ty m) =>
        failureResponse ⟨.INTERNAL_ERROR, "Internal server error: " ++ m,
          [], ""⟩ := by
  cases hint : execute_query_internal o C request db with
  | ok r =>
    cases hrl : o.rate_limiter_configured <;>
      simp [execute_query, hres, hrl, hpt, hint]
  | error e =>
    cases e with
    | TimeoutError =>
      cases hrl : o.rate_limiter_configured <;>
        simp [execute_query, hres, hrl, hpt, hint, PyExc.str]
    | PgMcpErr code m a h =>
      cases hrl : o.rate_limiter_configured <;>
        simp [execute_query, hres, hrl, hpt, hint, PyExc.str]
    | OtherExc _ty m =>
      cases hrl : o.rate_limiter_configured <;>
        simp [execute_query, hres, hrl, hpt, hint, PyExc.str]

/-- The internal pipeline on the success path: cached schema, successful
generation, `RESULT` return type and successful execution produce a success
response whose confidence comes from `validate_results_safely`. -/
theorem execute_query_internal_success (o : Orchestrator)
    (C : Collaborators) (request : QueryRequest) (db : String)
    (rows : List Row) (total : Nat) (sql : String)
    (vr : ValidationResult) (calls : List GenCall)
    (hsc : C.schema_cached = true)
    (hgen : generate_sql_with_retry o C.validator C.gen C.circuit_allow =
      .ok (sql, vr, calls))
    (hrt : request.return_type = .RESULT)
    (hex : C.executor = .ok (rows, total)) :
    execute_query_internal o C request db =
      .ok { success := true, generated_sql := some sql,
            validation := some vr
            data := some { columns := (rows.head?.map Row.keys).getD []
                           rows := rows, row_count := rows.length
                           execution_time_ms := 0 }
            error := none
            confidence :=
              validate_results_safely o.validation_enabled C.result_validate
            tokens_used := none } := by
  simp [execute_query_internal, hsc, hgen, hrt, hex]

/-- The internal pipeline propagates executor exceptions unchanged. -/
theorem execute_query_internal_executor_error (o : Orchestrator)
    (C : Collaborators) (request : QueryRequest) (db : String)
    (ex : PyExc) (sql : String) (vr : ValidationResult)
    (calls : List GenCall)
    (hsc : C.schema_cached = true)
    (hgen : generate_sql_with_retry o C.validator C.gen C.circuit_allow =
      .ok (sql, vr, calls))
    (hrt : request.return_type = .RESULT)
    (hex : C.executor = .error ex) :
    execute_query_internal o C request db = .error ex := by
  simp [execute_query_internal, hsc, hgen, hrt, hex]

/-- C6: with `max_retries ≥ 1`, a generator whose first SQL fails
validation and whose second SQL passes is called exactly twice: with null
`previous_attempt`/`error_feedback` on the first call, and with the first
SQL and its validation error text on the second. -/
theorem retry_loop_calls_generator_twice (o : Orchestrator)
    (validator : String → Except ValidationError Unit)
    (gen : Nat → Except PyExc String)
    (sql1 sql2 : String) (e : ValidationError)
    (hmr : 1 ≤ o.max_retries)
    (hg0 : gen 0 = .ok sql1) (hg1 : gen 1 = .ok sql2)
    (hv1 : validator sql1 = .error e) (hv2 : validator sql2 = .ok ()) :
    generate_sql_with_retry o validator gen true =
      .ok (sql2, allClearValidationResult,
        [⟨none, none⟩, ⟨some sql1, some e.toString⟩]) := by
  obtain ⟨r, hr⟩ : ∃ r, o.max_retries = r + 1 :=
    ⟨o.max_retries - 1, by omega⟩
  simp [generate_sql_with_retry, hr, generate_sql_with_retry_go,
    hg0, hg1, hv1, hv2]

/-- C6 witness: a generator returning a DROP first and a SELECT second,
with `max_retries = 1`, is called exactly twice with the claimed
arguments. -/
theorem retry_loop_calls_generator_twice_witness :
    generate_sql_with_retry
      (Orchestrator.init ["db1"] ["db1"] none false [] 1 false true)
      (fun s => if s = "SELECT 1" then .ok ()
        else .error (.SecurityViolationError "DROP statements are not allowed."))
      (fun n => if n = 0 then .ok "DROP TABLE t" else .ok "SELECT 1")
      true =
      .ok ("SELECT 1", allClearValidationResult,
        [⟨none, none⟩,
         ⟨some "DROP TABLE t", some "DROP statements are not allowed."⟩]) := by
  exact retry_loop_calls_generator_twice
    (Orchestrator.init ["db1"] ["db1"] none false [] 1 false true)
    (fun s => if s = "SELECT 1" then .ok ()
      else .error (.SecurityViolationError "DROP statements are not allowed."))
    (fun n => if n = 0 then .ok "DROP TABLE t" else .ok "SELECT 1")
    "DROP TABLE t" "SELECT 1"
    (.SecurityViolationError "DROP statements are not allowed.")
    (by decide) rfl rfl rfl rfl

/-- C7: result validation never fails a request — with validation disabled
the confidence is 100 with no dependence on the validator's outcome; any
validator exception yields confidence 100; a normal return is used as the
confidence; and on a successfully executed request the response's success
stays `true` whatever the validator did, with confidence 100 when it
raised. -/
theorem result_validation_never_fails (enabled : Bool) (o : Orchestrator)
    (C : Collaborators) (request : QueryRequest) (db : String) :
    (enabled = false →
      ∀ outcome, validate_results_safely enabled outcome = 100)
    ∧ (∀ ex, validate_results_safely enabled (.error ex) = 100)
    ∧ (enabled = true →
        ∀ c, validate_results_safely enabled (.ok c) = c)
    ∧ (∀ (rows : List Row) (total : Nat) (sql : String)
        (vr : ValidationResult) (calls : List GenCall),
        resolve_database o request.database C.select_outcome = .ok db →
        C.query_permit_timeout = false →
        C.schema_cached = true →
        request.return_type = .RESULT →
        generate_sql_with_retry o C.validator C.gen C.circuit_allow =
          .ok (sql, vr, calls) →
        C.executor = .ok (rows, total) →
        (execute_query o C request).success = true
        ∧ (∀ ex, C.result_validate = .error ex →
            (execute_query o C request).confidence = 100)) := by
  refine ⟨?_, ?_, ?_, ?_⟩
  · intro he outcome
    simp [validate_results_safely, he]
  · intro ex
    cases enabled <;> simp [validate_results_safely]
  · intro he c
    simp [validate_results_safely, he]
  · intro rows total sql vr calls hres hpt hsc hrt hgen hex
    rw [execute_query_via_internal o C request db hres hpt,
      execute_query_internal_success o C request db rows total sql vr calls
        hsc hgen hrt hex]
    refine ⟨rfl, ?_⟩
    intro ex hrv
    show validate_results_safely o.validation_enabled C.result_validate = 100
    rw [hrv]
    cases o.validation_enabled <;> simp [validate_results_safely]

/-- C7 witness: the four clauses at concrete inputs, including a full
pipeline run whose result validator raises. -/
theorem result_validation_never_fails_witness :
    validate_results_safely false (.ok 42) = 100
    ∧ validate_results_safely true (.error .TimeoutError) = 100
    ∧ validate_results_safely true (.ok 55) = 55
    ∧ (execute_query
        (Orchestrator.init ["db1"] ["db1"] none false [] 3 true true)
        { select_outcome := .error "", circuit_allow := true,
          schema_cached := true, schema_load := .ok (),
          gen := fun _ => .ok "SELECT 1", validator := fun _ => .ok (),
          query_permit_timeout := false,
          executor := .ok ([[("id", "1")]], 1),
          result_validate := .error .TimeoutError }
        { question := "q" }).success = true := by
  refine ⟨?_, ?_, ?_, ?_⟩
  · exact (result_validation_never_fails false
      (Orchestrator.init ["db1"] ["db1"] none false [] 3 true true)
      { select_outcome := .error "", circuit_allow := true,
        schema_cached := true, schema_load := .ok (),
        gen := fun _ => .ok "SELECT 1", validator := fun _ => .ok (),
        query_permit_timeout := false,
        executor := .ok ([[("id", "1")]], 1),
        result_validate := .error .TimeoutError }
      { question := "q" } "db1").1 rfl (.ok 42)
  · exact (result_validation_never_fails true
      (Orchestrator.init ["db1"] ["db1"] none false [] 3 true true)
      { select_outcome := .error "", circuit_allow := true,
        schema_cached := true, schema_load := .ok (),
        gen := fun _ => .ok "SELECT 1", validator := fun _ => .ok (),
        query_permit_timeout := false,
        executor := .ok ([[("id", "1")]], 1),
        result_validate := .error .TimeoutError }
      { question := "q" } "db1").2.1 .TimeoutError
  · exact (result_validation_never_fails true
      (Orchestrator.init ["db1"] ["db1"] none false [] 3 true true)
      { select_outcome := .error "", circuit_allow := true,
        schema_cached := true, schema_load := .ok (),
        gen := fun _ => .ok "SELECT 1", validator := fun _ => .ok (),
        query_permit_timeout := false,
        executor := .ok ([[("id", "1")]], 1),
        result_validate := .error .TimeoutError }
      { question := "q" } "db1").2.2.1 rfl 55
  · exact ((result_validation_never_fails true
      (Orchestrator.init ["db1"] ["db1"] none false [] 3 true true)
      { select_outcome := .error "", circuit_allow := true,
        schema_cached := true, schema_load := .ok (),
        gen := fun _ => .ok "SELECT 1", validator := fun _ => .ok (),
        query_permit_timeout := false,
        executor := .ok ([[("id", "1")]], 1),
        result_validate := .error .TimeoutError }
      { question := "q" } "db1").2.2.2 [[("id", "1")]] 1 "SELECT 1"
      allClearValidationResult [⟨none, none⟩] rfl rfl rfl rfl rfl rfl).1

/-- C8: the pydantic construction of `QueryResponse` accepts a response
with `success = true`, `data` present AND `error` present — violating the
specified invariant (`error` iff `¬success`, never both `data` and
`error`).  The both-present check in `validate_data` is dead code: pydantic
validates fields in declaration order, so `error` is never in `info.data`
when `data` is validated, and `validate_error` never forbids `error`
alongside `success = true`. -/
theorem queryResponse_invariant_violated_at_input :
    mkQueryResponse true none none (some {})
        (some ⟨.INTERNAL_ERROR, "boom", [], ""⟩) 100 none =
      .ok { success := true, generated_sql := none, validation := none,
            data := some {}
            error := some ⟨.INTERNAL_ERROR, "boom", [], ""⟩
            confidence := 100, tokens_used := none }
    ∧ ¬ QueryResponse.specInvariant
        { success := true, generated_sql := none, validation := none,
          data := some {}
          error := some ⟨.INTERNAL_ERROR, "boom", [], ""⟩
          confidence := 100, tokens_used := none } := by
  exact ⟨rfl, by decide⟩

/-- The part of the `QueryResponse` invariant the pydantic validators do
enforce: a constructed response with `success = false` has no `data` and
does have an `error`. -/
theorem mkQueryResponse_failure_invariant (generated_sql : Option String)
    (validation : Option ValidationResult) (data : Option QueryResult)
    (error : Option ErrorDetail) (confidence : Nat)
    (tokens_used : Option Nat) (r : QueryResponse)
    (h : mkQueryResponse false generated_sql validation data error
      confidence tokens_used = .ok r) :
    r.data = none ∧ r.error.isSome := by
  rw [mkQueryResponse] at h
  by_cases hd : data.isSome
  · simp [hd] at h
  · by_cases he : error.isNone
    · simp [hd, he] at h
    · simp [hd, he] at h
      rw [← h]
      simp only [Option.not_isSome_iff_eq_none] at hd
      simpa [hd] using Option.ne_none_iff_isSome.mp
        (by simpa [Option.isNone_iff_eq_none] using he)

/-- C10 counterexample: rate limiter configured, and a `TimeoutError`
raised by the ResultValidator — a collaborator called during internal
execution — yields a SUCCESS response (the exception is absorbed with
confidence 100), not a failure with code `RATE_LIMIT_EXCEEDED`. -/
theorem timeout_scope_counterexample :
    (execute_query
      (Orchestrator.init ["db1"] ["db1"] none false [] 3 true true)
      { select_outcome := .error "", circuit_allow := true,
        schema_cached := true, schema_load := .ok (),
        gen := fun _ => .ok "SELECT 1", validator := fun _ => .ok (),
        query_permit_timeout := false,
        executor := .ok ([[("id", "1")]], 1),
        result_validate := .error .TimeoutError }
      { question := "q" }).success = true
    ∧ (execute_query
      (Orchestrator.init ["db1"] ["db1"] none false [] 3 true true)
      { select_outcome := .error "", circuit_allow := true,
        schema_cached := true, schema_load := .ok (),
        gen := fun _ => .ok "SELECT 1", validator := fun _ => .ok (),
        query_permit_timeout := false,
        executor := .ok ([[("id", "1")]], 1),
        result_validate := .error .TimeoutError }
      { question := "q" }).error = none := by
  exact ⟨rfl, rfl⟩

/-- C10 (amended): with a rate limiter configured, a query-permit
acquisition timeout, and any `TimeoutError` that escapes the internal
pipeline — in particular one raised by the SQL executor — are mapped to a
failure response with code `RATE_LIMIT_EXCEEDED`; but a `TimeoutError`
from the generation stage is converted to an `LLMError` inside the retry
loop (and one from result validation is absorbed, see the
counterexample), so it does not surface as `RATE_LIMIT_EXCEEDED`. -/
theorem timeout_rate_limit_mapping (o : Orchestrator) (C : Collaborators)
    (request : QueryRequest) (db : String)
    (hrl : o.rate_limiter_configured = true)
    (hres : resolve_database o request.database C.select_outcome = .ok db) :
    (C.query_permit_timeout = true →
      execute_query o C request =
        failureResponse ⟨.RATE_LIMIT_EXCEEDED,
          "Rate limit exceeded. Too many concurrent requests.", [], ""⟩)
    ∧ (C.query_permit_timeout = false →
        execute_query_internal o C request db = .error .TimeoutError →
        execute_query o C request =
          failureResponse ⟨.RATE_LIMIT_EXCEEDED,
            "Rate limit exceeded. Too many concurrent requests.", [], ""⟩)
    ∧ (C.schema_cached = true → request.return_type = .RESULT →
        C.executor = .error .TimeoutError →
        ∀ (sql : String) (vr : ValidationResult) (calls : List GenCall),
          generate_sql_with_retry o C.validator C.gen C.circuit_allow =
            .ok (sql, vr, calls) →
          execute_query_internal o C request db = .error .TimeoutError)
    ∧ (C.circuit_allow = true → C.gen 0 = .error .TimeoutError →
        generate_sql_with_retry o C.validator C.gen C.circuit_allow =
          .error (.PgMcpErr .LLM_ERROR
            "LLM rate limit exceeded. Too many concurrent LLM calls."
            [] "")) := by
  refine ⟨?_, ?_, ?_, ?_⟩
  · intro hpt
    simp [execute_query, hres, hrl, hpt]
  · intro hpt hint
    rw [execute_query_via_internal o C request db hres hpt, hint, hrl]
    simp
  · intro hsc hrt hex sql vr calls hgen
    exact execute_query_internal_executor_error o C request db
      .TimeoutError sql vr calls hsc hgen hrt hex
  · intro hca hg0
    rw [hca]
    simp [generate_sql_with_retry, generate_sql_with_retry_go, hg0, hrl]

/-- C10 witness for the amended statement: an executor `TimeoutError` in a
concrete configured pipeline produces the `RATE_LIMIT_EXCEEDED` failure
response. -/
theorem timeout_rate_limit_mapping_witness :
    execute_query
      (Orchestrator.init ["db1"] ["db1"] none false [] 3 true true)
      { select_outcome := .error "", circuit_allow := true,
        schema_cached := true, schema_load := .ok (),
        gen := fun _ => .ok "SELECT 1", validator := fun _ => .ok (),
        query_permit_timeout := false,
        executor := .error .TimeoutError,
        result_validate := .ok 80 }
      { question := "q" } =
      failureResponse ⟨.RATE_LIMIT_EXCEEDED,
        "Rate limit exceeded. Too many concurrent requests.", [], ""⟩ := by
  have h := timeout_rate_limit_mapping
    (Orchestrator.init ["db1"] ["db1"] none false [] 3 true true)
    { select_outcome := .error "", circuit_allow := true,
      schema_cached := true, schema_load := .ok (),
      gen := fun _ => .ok "SELECT 1", validator := fun _ => .ok (),
      query_permit_timeout := false,
      executor := .error .TimeoutError,
      result_validate := .ok 80 }
    { question := "q" } "db1" rfl rfl
  exact h.2.1 rfl
    (h.2.2.1 rfl rfl rfl "SELECT 1" allClearValidationResult
      [⟨none, none⟩] rfl)

end PgMcp
